import Mathlib

/-!
Shallow embedding of `src/steiner-curve.py`.

The embedded core is the `SteinerCurve` class (parameter validation and
the three evaluation methods) and the `Animator` class (frame state
machine).  Python floats are modelled as real numbers; numpy array
operations become `List.map`.  Qt widgets, timers and matplotlib
rendering mutate no logical `Animator` state and are omitted, except
that the early-return guard of `draw_current_frame` is modelled by the
predicate `draws_frame` (true exactly when the guard lets drawing
proceed).  Python integer `%` with the positive modulus 300 agrees with
`Int.emod`.
-/

namespace SteinerCurvePy

/-- `class Point` (src lines 13-16): an immutable pair of coordinates. -/
structure Point where
  x : ℝ
  y : ℝ

/-- The single error kind of the core: `set_parameters` raises
`ValueError` for invalid parameter combinations (src lines 23-26). -/
inductive CurveError where
  | invalidParameter

/-- The stored parameter triple of `class SteinerCurve` (src lines 18-30). -/
structure SteinerCurve where
  R : ℝ
  r : ℝ
  d : ℝ

/-- `SteinerCurve.set_parameters` (src lines 22-30): raises when
`R <= 0 or r <= 0 or d <= 0`, then when `d > r`; only afterwards stores
the triple.  The raise happens before any field assignment, so a failing
call leaves the stored triple untouched. -/
noncomputable def set_parameters (R r d : ℝ) : Except CurveError SteinerCurve :=
  if R ≤ 0 ∨ r ≤ 0 ∨ d ≤ 0 then Except.error CurveError.invalidParameter
  else if d > r then Except.error CurveError.invalidParameter
  else Except.ok ⟨R, r, d⟩

/-- State-passing wrapper for `set_parameters` on an existing curve
object: on failure the old triple `c` remains (the Python raise occurs
before the assignments on src lines 28-30), on success the triple is
replaced; the boolean records success. -/
noncomputable def step_set_parameters (c : SteinerCurve) (R r d : ℝ) :
    SteinerCurve × Bool :=
  match set_parameters R r d with
  | Except.ok c2 => (c2, true)
  | Except.error _ => (c, false)

/-- `SteinerCurve.calculate_cartesian` (src lines 32-35):
`x = (R - r)*cos(t) + d*cos(((R - r)/r)*t)`,
`y = (R - r)*sin(t) - d*sin(((R - r)/r)*t)`, elementwise over the input
angles, packaged as `Point`s. -/
noncomputable def calculate_cartesian (c : SteinerCurve) (t_values : List ℝ) :
    List Point :=
  t_values.map (fun t =>
    ⟨(c.R - c.r) * Real.cos t + c.d * Real.cos (((c.R - c.r) / c.r) * t),
     (c.R - c.r) * Real.sin t - c.d * Real.sin (((c.R - c.r) / c.r) * t)⟩)

/-- `np.arctan2 y x`: the standard atan2 convention used by numpy,
expressed with `Real.arctan` (src line 40 applies it to `p.y, p.x`). -/
noncomputable def arctan2 (y x : ℝ) : ℝ :=
  if 0 < x then Real.arctan (y / x)
  else if x < 0 then
    (if 0 ≤ y then Real.arctan (y / x) + Real.pi
     else Real.arctan (y / x) - Real.pi)
  else if 0 < y then Real.pi / 2
  else if y < 0 then -(Real.pi / 2)
  else 0

/-- `SteinerCurve.calculate_polar` (src lines 37-41): first computes the
Cartesian points via `calculate_cartesian`, then maps
`sqrt(x^2 + y^2)` and `arctan2 y x` over those very points. -/
noncomputable def calculate_polar (c : SteinerCurve) (t_values : List ℝ) :
    List ℝ × List ℝ :=
  let points := calculate_cartesian c t_values
  (points.map (fun p => Real.sqrt (p.x ^ 2 + p.y ^ 2)),
   points.map (fun p => arctan2 p.y p.x))

/-- `SteinerCurve.calculate_rolling_circle` (src lines 43-46):
`x = (R - r)*cos(t)`, `y = (R - r)*sin(t)` elementwise. -/
noncomputable def calculate_rolling_circle (c : SteinerCurve) (t_values : List ℝ) :
    List ℝ × List ℝ :=
  (t_values.map (fun t => (c.R - c.r) * Real.cos t),
   t_values.map (fun t => (c.R - c.r) * Real.sin t))

/-- The logical state of `class Animator` (src lines 129-146): the curve
object, frame counter, fixed step total, running flag, and the five
generated sample arrays.  Canvases, slider and timer are rendering-side
collaborators carrying no core state.  `current_step` is an integer
because `set_frame` accepts any integer and reduces it mod
`total_steps`. -/
structure AnimState where
  curve : SteinerCurve
  current_step : ℤ
  total_steps : ℤ
  animation_running : Bool
  points : List Point
  polar_r : List ℝ
  polar_theta : List ℝ
  rolling_circle_x : List ℝ
  rolling_circle_y : List ℝ

/-- `Animator.__init__` (src lines 130-146): step 0, 300 total steps,
not running, all sample arrays empty. -/
noncomputable def init_animator (curve : SteinerCurve) : AnimState :=
  { curve := curve
    current_step := 0
    total_steps := 300
    animation_running := false
    points := []
    polar_r := []
    polar_theta := []
    rolling_circle_x := []
    rolling_circle_y := [] }

/-- `np.linspace a b n` with endpoint inclusion: `n` equally spaced
values `a + i*(b - a)/(n - 1)` for `i = 0, ..., n-1` (src line 168). -/
noncomputable def linspace (a b : ℝ) (n : ℕ) : List ℝ :=
  (List.range n).map (fun (i : ℕ) => a + (b - a) * (i : ℝ) / ((n : ℝ) - 1))

/-- `Animator.generate_points` (src lines 166-175): evaluates the three
curve methods over `linspace 0 (2*pi) total_steps` and stores the
results; returns `True`.  The Python `except` branch is unreachable in
the real-number model: the body is total (numpy float arithmetic on
these arrays raises no exception), so the method always succeeds.  Note
it touches neither `current_step` nor `animation_running`. -/
noncomputable def generate_points (s : AnimState) : AnimState × Bool :=
  let t_values := linspace 0 (2 * Real.pi) s.total_steps.toNat
  ({ s with
      points := calculate_cartesian s.curve t_values
      polar_r := (calculate_polar s.curve t_values).1
      polar_theta := (calculate_polar s.curve t_values).2
      rolling_circle_x := (calculate_rolling_circle s.curve t_values).1
      rolling_circle_y := (calculate_rolling_circle s.curve t_values).2 },
   true)

/-- `Animator.start_animation` (src lines 148-157): generate first if no
points are present; then start only when not already running. -/
noncomputable def start_animation (s : AnimState) : AnimState × Bool :=
  let gen := if s.points.isEmpty then generate_points s else (s, true)
  if gen.2 = false then (gen.1, false)
  else if gen.1.animation_running = false then
    ({ gen.1 with animation_running := true }, true)
  else (gen.1, false)

/-- `Animator.stop_animation` (src lines 159-164): clears the running
flag and reports `True` when it was set; otherwise changes nothing and
reports `False`.  (`timer.stop()` is rendering-side.) -/
def stop_animation (s : AnimState) : AnimState × Bool :=
  if s.animation_running then ({ s with animation_running := false }, true)
  else (s, false)

/-- `Animator.update_frame` (src lines 177-183): returns immediately
when not running, else advances the step mod `total_steps`.  The slider
update and redraw are rendering-side. -/
def update_frame (s : AnimState) : AnimState :=
  if s.animation_running = false then s
  else { s with current_step := (s.current_step + 1) % s.total_steps }

/-- `Animator.set_frame` (src lines 185-187): unconditionally sets
`current_step = step % total_steps`, then redraws (rendering-side). -/
def set_frame (s : AnimState) (step : ℤ) : AnimState :=
  { s with current_step := step % s.total_steps }

/-- The guard of `Animator.draw_current_frame` (src lines 189-191): the
method returns without drawing anything unless points are present and
`current_step < len(points)`. -/
def draws_frame (s : AnimState) : Bool :=
  !s.points.isEmpty && decide (s.current_step < (s.points.length : ℤ))

/-- The default curve of `MainWindow.__init__` / `SteinerCurve.__init__`
(`R=3, r=1, d=1`, src line 19). -/
noncomputable def defaultCurve : SteinerCurve := ⟨3, 1, 1⟩

/-- A paused state with one generated point, used to instantiate the
universally quantified theorems at a concrete input. -/
noncomputable def pausedState : AnimState :=
  { curve := defaultCurve
    current_step := 0
    total_steps := 300
    animation_running := false
    points := [⟨3, 0⟩]
    polar_r := [3]
    polar_theta := [0]
    rolling_circle_x := [2]
    rolling_circle_y := [0] }

/-- The paused concrete state with the running flag set. -/
noncomputable def runningState : AnimState :=
  { pausedState with animation_running := true }

/-- The paused concrete state parked at frame 5. -/
noncomputable def seekState : AnimState :=
  { pausedState with current_step := 5 }

/-- `start_animation` applied to a freshly constructed animator:
it generates the sample and sets the running flag. -/
noncomputable def startedState : AnimState :=
  (start_animation (init_animator defaultCurve)).1

/-- `startedState` after one timer tick: `current_step = 1`, still
running — a reachable state exercising `generate_points`. -/
noncomputable def tickedState : AnimState :=
  update_frame startedState

/-- Claim C1: `calculate_cartesian` maps an angle list to a same-length
point list following the hypotrochoid formulas
`x(t) = (R - r)*cos(t) + d*cos(((R - r)/r)*t)` and
`y(t) = (R - r)*sin(t) - d*sin(((R - r)/r)*t)`; in particular at
`t = 0` it yields the single point `(R - r + d, 0)`. -/
theorem evaluateCartesian_formula (c : SteinerCurve) (ts : List ℝ)
    (hR : 0 < c.R) (hr : 0 < c.r) (hd : 0 < c.d) (hdr : c.d ≤ c.r) :
    (calculate_cartesian c ts).length = ts.length ∧
    (∀ (i : ℕ) (t : ℝ), ts[i]? = some t →
      (calculate_cartesian c ts)[i]? = some
        (Point.mk
          ((c.R - c.r) * Real.cos t + c.d * Real.cos (((c.R - c.r) / c.r) * t))
          ((c.R - c.r) * Real.sin t - c.d * Real.sin (((c.R - c.r) / c.r) * t)))) ∧
    calculate_cartesian c [0] = [⟨c.R - c.r + c.d, 0⟩] := by
  refine ⟨by simp [calculate_cartesian], ?_, ?_⟩
  · intro i t ht
    simp [calculate_cartesian, ht]
  · simp [calculate_cartesian]

/-- Witness for C1 at the default parameters `(3, 1, 1)` and the
single-angle list `[0]`. -/
theorem evaluateCartesian_formula_witness :
    (calculate_cartesian ⟨3, 1, 1⟩ [0]).length = 1 ∧
    calculate_cartesian ⟨3, 1, 1⟩ [0] = [⟨(3 : ℝ) - 1 + 1, 0⟩] := by
  have h := evaluateCartesian_formula ⟨3, 1, 1⟩ [0]
    (by norm_num) (by norm_num) (by norm_num) (by norm_num)
  exact ⟨by simpa using h.1, h.2.2⟩

/-- Claim C2: `calculate_polar` derives both output lists from the very
points produced by `calculate_cartesian` on the same angles — for every
index, radius is `sqrt(x^2 + y^2)` and angle is `arctan2 y x` of that
Cartesian point — and both lists have the Cartesian list's length. -/
theorem evaluatePolar_from_cartesian (c : SteinerCurve) (ts : List ℝ)
    (hR : 0 < c.R) (hr : 0 < c.r) (hd : 0 < c.d) (hdr : c.d ≤ c.r) :
    (calculate_polar c ts).1.length = (calculate_cartesian c ts).length ∧
    (calculate_polar c ts).2.length = (calculate_cartesian c ts).length ∧
    (calculate_polar c ts).1 =
      (calculate_cartesian c ts).map (fun p => Real.sqrt (p.x ^ 2 + p.y ^ 2)) ∧
    (calculate_polar c ts).2 =
      (calculate_cartesian c ts).map (fun p => arctan2 p.y p.x) := by
  refine ⟨?_, ?_, rfl, rfl⟩ <;> simp [calculate_polar]

/-- Witness for C2 at parameters `(3, 1, 1)` and angle list `[0]`. -/
theorem evaluatePolar_from_cartesian_witness :
    (calculate_polar ⟨3, 1, 1⟩ [0]).1 =
      (calculate_cartesian ⟨3, 1, 1⟩ [0]).map
        (fun p => Real.sqrt (p.x ^ 2 + p.y ^ 2)) ∧
    (calculate_polar ⟨3, 1, 1⟩ [0]).2 =
      (calculate_cartesian ⟨3, 1, 1⟩ [0]).map (fun p => arctan2 p.y p.x) := by
  have h := evaluatePolar_from_cartesian ⟨3, 1, 1⟩ [0]
    (by norm_num) (by norm_num) (by norm_num) (by norm_num)
  exact ⟨h.2.2.1, h.2.2.2⟩

/-- Claim C3: `set_parameters` fails exactly when
`R <= 0 ∨ r <= 0 ∨ d <= 0 ∨ d > r`; on failure the previously stored
triple is unchanged (the raise precedes every assignment), and on
success the stored triple becomes `(R, r, d)`. -/
theorem setParameters_validation (c : SteinerCurve) (R r d : ℝ) :
    ((step_set_parameters c R r d).2 = false ↔
      (R ≤ 0 ∨ r ≤ 0 ∨ d ≤ 0 ∨ d > r)) ∧
    ((step_set_parameters c R r d).2 = false →
      (step_set_parameters c R r d).1 = c) ∧
    ((step_set_parameters c R r d).2 = true →
      (step_set_parameters c R r d).1 = ⟨R, r, d⟩) := by
  by_cases h1 : R ≤ 0 ∨ r ≤ 0 ∨ d ≤ 0
  · refine ⟨?_, ?_, ?_⟩ <;> simp [step_set_parameters, set_parameters, h1] <;> tauto
  · by_cases h2 : d > r
    · refine ⟨?_, ?_, ?_⟩ <;> simp [step_set_parameters, set_parameters, h1, h2] <;>
        tauto
    · refine ⟨?_, ?_, ?_⟩ <;> simp [step_set_parameters, set_parameters, h1, h2] <;>
        tauto

/-- Witness for C3: the spec's concrete scenario `setParameters(1, 1, 2)`
fails (it violates `d <= r`) and leaves the stored triple `(3, 1, 1)`
unchanged, while `setParameters(3, 1, 1)` succeeds and stores its
arguments. -/
theorem setParameters_validation_witness :
    (step_set_parameters ⟨3, 1, 1⟩ 1 1 2).2 = false ∧
    (step_set_parameters ⟨3, 1, 1⟩ 1 1 2).1 = ⟨3, 1, 1⟩ ∧
    (step_set_parameters ⟨3, 1, 1⟩ 3 1 1).1 = ⟨3, 1, 1⟩ := by
  have h := setParameters_validation ⟨3, 1, 1⟩ 1 1 2
  have h2 := setParameters_validation ⟨3, 1, 1⟩ 3 1 1
  have hb : (step_set_parameters ⟨3, 1, 1⟩ 1 1 2).2 = false :=
    h.1.mpr (by norm_num)
  have hg : (step_set_parameters ⟨3, 1, 1⟩ 3 1 1).2 = true := by
    cases hv : (step_set_parameters ⟨3, 1, 1⟩ 3 1 1).2 with
    | false =>
      exfalso
      have hcontra := h2.1.mp hv
      norm_num at hcontra
    | true => rfl
  exact ⟨hb, h.2.1 hb, h2.2.2 hg⟩

/-- Claim C8: `calculate_rolling_circle` returns the two coordinate
lists `x(t) = (R - r)*cos(t)` and `y(t) = (R - r)*sin(t)`; in particular
after a successful `set_parameters 3 1 1` the single angle `0` evaluates
to the point `(2, 0)`. -/
theorem rollingCircle_formula (c : SteinerCurve) (ts : List ℝ)
    (hR : 0 < c.R) (hr : 0 < c.r) (hd : 0 < c.d) (hdr : c.d ≤ c.r) :
    (calculate_rolling_circle c ts).1 =
      ts.map (fun t => (c.R - c.r) * Real.cos t) ∧
    (calculate_rolling_circle c ts).2 =
      ts.map (fun t => (c.R - c.r) * Real.sin t) ∧
    calculate_rolling_circle (step_set_parameters c 3 1 1).1 [0] =
      ([2], [0]) := by
  refine ⟨rfl, rfl, ?_⟩
  have hstep : (step_set_parameters c 3 1 1).1 = ⟨3, 1, 1⟩ := by
    simp [step_set_parameters, set_parameters]
    norm_num
  rw [hstep]
  simp [calculate_rolling_circle]
  norm_num

/-- Witness for C8 at the default parameters and angle list `[0]`. -/
theorem rollingCircle_formula_witness :
    calculate_rolling_circle
      (step_set_parameters ⟨5, 2, 1⟩ 3 1 1).1 [0] = ([2], [0]) :=
  (rollingCircle_formula ⟨5, 2, 1⟩ [0]
    (by norm_num) (by norm_num) (by norm_num) (by norm_num)).2.2

/-- `update_frame` on a running animator advances the step mod
`total_steps`. -/
theorem update_frame_running (s : AnimState) (h : s.animation_running = true) :
    update_frame s =
      { s with current_step := (s.current_step + 1) % s.total_steps } := by
  simp [update_frame, h]

/-- `update_frame` on a stopped animator is the identity (the Python
method returns immediately). -/
theorem update_frame_stopped (s : AnimState) (h : s.animation_running = false) :
    update_frame s = s := by
  simp [update_frame, h]

/-- `start_animation` from a fresh animator (no points, not running)
generates the sample and sets the running flag, reporting success. -/
theorem start_animation_fresh (s : AnimState) (hp : s.points = [])
    (hr : s.animation_running = false) :
    (start_animation s).1 =
      { (generate_points s).1 with animation_running := true } ∧
    (start_animation s).2 = true := by
  constructor <;> simp [start_animation, generate_points, hp, hr]

/-- Iterating `update_frame` on a running animator keeps it running,
keeps `total_steps`, and adds the iteration count to the step mod
`total_steps`. -/
theorem update_frame_iterate (s : AnimState)
    (hrun : s.animation_running = true)
    (h0 : 0 ≤ s.current_step) (h1 : s.current_step < s.total_steps) :
    ∀ k : ℕ,
      (update_frame^[k] s).animation_running = true ∧
      (update_frame^[k] s).total_steps = s.total_steps ∧
      (update_frame^[k] s).current_step =
        (s.current_step + k) % s.total_steps := by
  intro k
  induction k with
  | zero =>
    refine ⟨hrun, rfl, ?_⟩
    simpa using (Int.emod_eq_of_lt h0 h1).symm
  | succ n ih =>
    obtain ⟨ha, hb, hc⟩ := ih
    rw [Function.iterate_succ_apply', update_frame_running _ ha]
    refine ⟨ha, hb, ?_⟩
    show ((update_frame^[n] s).current_step + 1) %
        (update_frame^[n] s).total_steps =
      (s.current_step + ((n : ℕ) + 1 : ℕ)) % s.total_steps
    rw [hb, hc, Int.emod_add_emod]
    congr 1
    push_cast
    ring

/-- Claim C4 counterexample: from the reachable state `tickedState`
(fresh animator, `start_animation`, one tick — so `current_step = 1` and
running), `generate_points` succeeds yet leaves `current_step = 1` and
the running flag set: it neither resets the frame index to 0 nor moves
the controller to Paused. -/
theorem generate_no_reset_cex :
    (generate_points tickedState).2 = true ∧
    (generate_points tickedState).1.current_step = 1 ∧
    (generate_points tickedState).1.animation_running = true := by
  have hstart := (start_animation_fresh (init_animator defaultCurve) rfl rfl).1
  have hrun : startedState.animation_running = true := by
    unfold startedState
    rw [hstart]
  have hcs0 : startedState.current_step = 0 := by
    unfold startedState
    rw [hstart]
    rfl
  have htot : startedState.total_steps = 300 := by
    unfold startedState
    rw [hstart]
    rfl
  have htick : tickedState.current_step = 1 ∧
      tickedState.animation_running = true := by
    unfold tickedState
    rw [update_frame_running startedState hrun]
    constructor
    · show (startedState.current_step + 1) % startedState.total_steps = 1
      rw [hcs0, htot]
      decide
    · exact hrun
  exact ⟨rfl, htick.1, htick.2⟩

/-- Claim C4 (amended): `generate_points` evaluates the three curve
methods over `linspace 0 (2*pi) total_steps` — an equally spaced domain
of `total_steps` samples spanning `[0, 2*pi]` — replaces the five stored
sample arrays with the results, and always reports success (the body is
total in the real-number model); it leaves `current_step`,
`total_steps`, the running flag and the curve parameters unchanged (the
caller, not this method, resets the index and stops playback). -/
theorem generate_points_spec (s : AnimState) :
    (generate_points s).2 = true ∧
    (generate_points s).1.points =
      calculate_cartesian s.curve
        (linspace 0 (2 * Real.pi) s.total_steps.toNat) ∧
    (generate_points s).1.polar_r =
      (calculate_polar s.curve
        (linspace 0 (2 * Real.pi) s.total_steps.toNat)).1 ∧
    (generate_points s).1.polar_theta =
      (calculate_polar s.curve
        (linspace 0 (2 * Real.pi) s.total_steps.toNat)).2 ∧
    (generate_points s).1.rolling_circle_x =
      (calculate_rolling_circle s.curve
        (linspace 0 (2 * Real.pi) s.total_steps.toNat)).1 ∧
    (generate_points s).1.rolling_circle_y =
      (calculate_rolling_circle s.curve
        (linspace 0 (2 * Real.pi) s.total_steps.toNat)).2 ∧
    (generate_points s).1.points.length = s.total_steps.toNat ∧
    (generate_points s).1.current_step = s.current_step ∧
    (generate_points s).1.total_steps = s.total_steps ∧
    (generate_points s).1.animation_running = s.animation_running ∧
    (generate_points s).1.curve = s.curve := by
  refine ⟨rfl, rfl, rfl, rfl, rfl, rfl, ?_, rfl, rfl, rfl, rfl⟩
  show (calculate_cartesian s.curve
      (linspace 0 (2 * Real.pi) s.total_steps.toNat)).length =
    s.total_steps.toNat
  simp only [calculate_cartesian, linspace, List.length_map, List.length_range]

/-- Witness for the amended C4 at the concrete paused state. -/
theorem generate_points_spec_witness :
    (generate_points pausedState).2 = true ∧
    (generate_points pausedState).1.current_step =
      pausedState.current_step ∧
    (generate_points pausedState).1.animation_running =
      pausedState.animation_running := by
  obtain ⟨h1, h2, h3, h4, h5, h6, h7, h8, h9, h10, h11⟩ :=
    generate_points_spec pausedState
  exact ⟨h1, h8, h10⟩

/-- Claim C5 counterexample: on a fresh animator (no sample present),
`set_frame 7` does not fail — there is no `NoSampleGenerated` error
anywhere in the code — it returns a normal state with
`current_step = 7 % 300 = 7`, still no points, and the subsequent
`draw_current_frame` guard simply skips drawing. -/
theorem seek_idle_cex :
    (set_frame (init_animator defaultCurve) 7).current_step = 7 ∧
    (set_frame (init_animator defaultCurve) 7).points = [] ∧
    draws_frame (set_frame (init_animator defaultCurve) 7) = false := by
  refine ⟨?_, rfl, rfl⟩
  show (7 : ℤ) % 300 = 7
  decide

/-- Claim C5 (amended): `set_frame` invoked with no sample present does
not fail: it sets `current_step = index % total_steps`, leaves the
sample absent, and the subsequent frame draw is a no-op (the
`draw_current_frame` guard rejects the empty point list). -/
theorem seek_idle_total (s : AnimState) (i : ℤ) (h : s.points = []) :
    (set_frame s i).current_step = i % s.total_steps ∧
    (set_frame s i).points = [] ∧
    draws_frame (set_frame s i) = false := by
  refine ⟨rfl, ?_, ?_⟩
  · simp [set_frame, h]
  · simp [draws_frame, set_frame, h]

/-- Witness for the amended C5 on a fresh animator at index 7. -/
theorem seek_idle_total_witness :
    (set_frame (init_animator defaultCurve) 7).points = [] ∧
    draws_frame (set_frame (init_animator defaultCurve) 7) = false := by
  have h := seek_idle_total (init_animator defaultCurve) 7 rfl
  exact ⟨h.2.1, h.2.2⟩

/-- Claim C6: on a running animator, `update_frame` advances the step to
`(current_step + 1) % total_steps` and stays running; consequently for
`total_steps >= 1`, ticking `total_steps` times from step 0 returns the
step to 0. -/
theorem tick_advances_and_loops (s : AnimState)
    (hrun : s.animation_running = true) (hN : 1 ≤ s.total_steps) :
    (update_frame s).current_step = (s.current_step + 1) % s.total_steps ∧
    (update_frame s).animation_running = true ∧
    (s.current_step = 0 →
      (update_frame^[s.total_steps.toNat] s).current_step = 0) := by
  refine ⟨?_, ?_, ?_⟩
  · rw [update_frame_running s hrun]
  · rw [update_frame_running s hrun]
    exact hrun
  · intro h0
    have hiter := update_frame_iterate s hrun (by omega) (by omega)
      s.total_steps.toNat
    rw [hiter.2.2, h0, Int.toNat_of_nonneg (by omega : (0 : ℤ) ≤ s.total_steps)]
    simp

/-- Witness for C6: 300 ticks on the concrete running state return the
frame index to 0. -/
theorem tick_advances_and_loops_witness :
    (update_frame^[(300 : ℤ).toNat] runningState).current_step = 0 := by
  have h := tick_advances_and_loops runningState rfl (by decide)
  exact h.2.2 rfl

/-- Claim C7: with a sample present, `set_frame` sets
`current_step = index % total_steps` for every integer index (wrapping
instead of rejecting), and `set_frame` at `total_steps` produces exactly
the same state as `set_frame` at 0. -/
theorem seek_wraps_index (s : AnimState) (h : s.points ≠ []) (i : ℤ) :
    (set_frame s i).current_step = i % s.total_steps ∧
    set_frame s s.total_steps = set_frame s 0 := by
  refine ⟨rfl, ?_⟩
  simp [set_frame, Int.emod_self, Int.zero_emod]

/-- Witness for C7 at the concrete paused state (one point present):
seeking 7 parks at frame 7, and seeking 300 equals seeking 0. -/
theorem seek_wraps_index_witness :
    (set_frame pausedState 7).current_step = 7 ∧
    set_frame pausedState 300 = set_frame pausedState 0 := by
  have h := seek_wraps_index pausedState (by simp [pausedState]) 7
  refine ⟨?_, h.2⟩
  rw [h.1]
  show (7 : ℤ) % 300 = 7
  decide

/-- Claim C9: with a sample present and `total_steps = 300`, every
animator operation — `generate_points`, `start_animation`,
`stop_animation`, `update_frame`, `set_frame` — preserves
`0 <= current_step < total_steps`, and each keeps `total_steps` fixed at
300. -/
theorem frame_index_invariant (s : AnimState)
    (hsample : s.points ≠ [])
    (hN : s.total_steps = 300)
    (h0 : 0 ≤ s.current_step) (h1 : s.current_step < s.total_steps) :
    (0 ≤ (generate_points s).1.current_step ∧
      (generate_points s).1.current_step <
        (generate_points s).1.total_steps ∧
      (generate_points s).1.total_steps = 300) ∧
    (0 ≤ (start_animation s).1.current_step ∧
      (start_animation s).1.current_step <
        (start_animation s).1.total_steps ∧
      (start_animation s).1.total_steps = 300) ∧
    (0 ≤ (stop_animation s).1.current_step ∧
      (stop_animation s).1.current_step <
        (stop_animation s).1.total_steps ∧
      (stop_animation s).1.total_steps = 300) ∧
    (0 ≤ (update_frame s).current_step ∧
      (update_frame s).current_step < (update_frame s).total_steps ∧
      (update_frame s).total_steps = 300) ∧
    (∀ i : ℤ, 0 ≤ (set_frame s i).current_step ∧
      (set_frame s i).current_step < (set_frame s i).total_steps ∧
      (set_frame s i).total_steps = 300) := by
  have hp : s.points.isEmpty = false := by
    cases hpoints : s.points with
    | nil => exact absurd hpoints hsample
    | cons a l => rfl
  have hpos : (0 : ℤ) < s.total_steps := by omega
  have hne : s.total_steps ≠ 0 := by omega
  refine ⟨⟨h0, h1, hN⟩, ?_, ?_, ?_, ?_⟩
  · cases hr : s.animation_running with
    | false =>
      have hg : (start_animation s).1 = { s with animation_running := true } := by
        simp [start_animation, hp, hr]
      rw [hg]
      exact ⟨h0, h1, hN⟩
    | true =>
      have hg : (start_animation s).1 = s := by
        simp [start_animation, hp, hr]
      rw [hg]
      exact ⟨h0, h1, hN⟩
  · cases hr : s.animation_running with
    | false =>
      have hg : (stop_animation s).1 = s := by simp [stop_animation, hr]
      rw [hg]
      exact ⟨h0, h1, hN⟩
    | true =>
      have hg : (stop_animation s).1 = { s with animation_running := false } := by
        simp [stop_animation, hr]
      rw [hg]
      exact ⟨h0, h1, hN⟩
  · cases hr : s.animation_running with
    | false =>
      rw [update_frame_stopped s hr]
      exact ⟨h0, h1, hN⟩
    | true =>
      rw [update_frame_running s hr]
      exact ⟨Int.emod_nonneg _ hne, Int.emod_lt_of_pos _ hpos, hN⟩
  · intro i
    exact ⟨Int.emod_nonneg _ hne, Int.emod_lt_of_pos _ hpos, hN⟩

/-- Witness for C9 at the concrete paused state parked at frame 5. -/
theorem frame_index_invariant_witness :
    0 ≤ (update_frame seekState).current_step ∧
    (update_frame seekState).current_step <
      (update_frame seekState).total_steps ∧
    0 ≤ (set_frame seekState 700).current_step ∧
    (set_frame seekState 700).current_step <
      (set_frame seekState 700).total_steps := by
  have h := frame_index_invariant seekState (by simp [pausedState, seekState])
    rfl (by decide) (by decide)
  exact ⟨h.2.2.2.1.1, h.2.2.2.1.2.1, (h.2.2.2.2 700).1, (h.2.2.2.2 700).2.1⟩

/-- Claim C10: `stop_animation` changes only the running flag — the
curve parameters, frame index, step total and all five sample arrays are
exactly as before, and the flag is clear afterwards; when the animator
was not running the call changes nothing at all and reports `false`
(nothing was stopped). -/
theorem stop_changes_only_running_flag (s : AnimState) :
    ((stop_animation s).1.curve = s.curve ∧
      (stop_animation s).1.current_step = s.current_step ∧
      (stop_animation s).1.total_steps = s.total_steps ∧
      (stop_animation s).1.points = s.points ∧
      (stop_animation s).1.polar_r = s.polar_r ∧
      (stop_animation s).1.polar_theta = s.polar_theta ∧
      (stop_animation s).1.rolling_circle_x = s.rolling_circle_x ∧
      (stop_animation s).1.rolling_circle_y = s.rolling_circle_y ∧
      (stop_animation s).1.animation_running = false) ∧
    (s.animation_running = false → stop_animation s = (s, false)) := by
  cases hr : s.animation_running with
  | false =>
    refine ⟨?_, fun _ => by simp [stop_animation, hr]⟩
    simp [stop_animation, hr]
  | true =>
    refine ⟨?_, fun hf => absurd hf (by simp [hr])⟩
    simp [stop_animation, hr]

/-- Witness for C10: stopping the concrete non-running paused state
changes nothing and reports `false`. -/
theorem stop_changes_only_running_flag_witness :
    stop_animation pausedState = (pausedState, false) :=
  (stop_changes_only_running_flag pausedState).2 rfl

end SteinerCurvePy
